import Mathlib

/-!
A shallow embedding of the CHIP-8 interpreter core of `luddd3/chip8go`
(package `chip`), together with theorems checking the natural-language
specification against it.

Modelling conventions:
* Go machine integers are embedded as `Nat` with explicit reduction
  `% 256` (for `byte`) and `% 65536` (for `uint16`) wherever Go's
  fixed-width arithmetic can wrap.
* A Go slice of fixed length is embedded as a `Slice`: its length plus a
  total contents function. Every indexing operation goes through
  `rd`/`wr`, which return `Fault.outOfRange` exactly where the Go code
  would panic with "index out of range"; cells outside the bound are
  never read or written through `rd`/`wr`.
* `panic("not implemented yet!")` (in `isPressed`/`waitKey`) is embedded
  as `Fault.notImplemented`.
* The `error` value produced by `unrecognizedOpcode` is embedded as
  `Fault.unrecognized opcode`.
* `rand.Intn(256)` in the `Cxkk` handler is embedded by threading an
  explicit `rnd` argument through `nextOp`.
-/

namespace Chip8

/-- Outcomes that abort a step of the Go code: a slice-index panic, a
`panic("not implemented yet!")`, or the error returned by
`unrecognizedOpcode`. -/
inductive Fault where
  | outOfRange : Fault
  | notImplemented : Fault
  | unrecognized (opcode : Nat) : Fault
deriving DecidableEq

/-- A Go slice of `byte`/`uint16` values: a length and the cell contents. -/
structure Slice where
  size : Nat
  data : Nat → Nat

/-- Go `make([]T, n)`: `n` zero values. -/
def Slice.make (n : Nat) : Slice := ⟨n, fun _ => 0⟩

/-- Point update of the contents (used only behind a bounds check). -/
def Slice.ovw (a : Slice) (n x : Nat) : Slice :=
  ⟨a.size, fun j => if j = n then x else a.data j⟩

/-- Checked slice read: Go `a[n]`, panicking when out of range. -/
def rd (a : Slice) (n : Nat) : Except Fault Nat :=
  if n < a.size then Except.ok (a.data n) else Except.error Fault.outOfRange

/-- Checked slice write: Go `a[n] = x`, panicking when out of range. -/
def wr (a : Slice) (n x : Nat) : Except Fault Slice :=
  if n < a.size then Except.ok (a.ovw n x) else Except.error Fault.outOfRange

/-- The `Chip` struct of the source (the `screen` field, an external
handle used only by rendering, is omitted). -/
structure Chip where
  memory : Slice
  display : Slice
  stack : Slice
  v : Slice
  dt : Nat
  st : Nat
  keys : Slice
  i : Nat
  pc : Nat
  sp : Nat
  currentKey : Nat
  drawFlag : Bool

/-- Reduction of Go `byte` arithmetic. -/
def b8 (n : Nat) : Nat := n % 256

/-- Reduction of Go `uint16` arithmetic. -/
def b16 (n : Nat) : Nat := n % 65536

/-- The hard-wired `keyMap` table (Go map literal; a missing rune gives
the zero value 0, as Go map lookup does). -/
def keyMap (char : Char) : Nat :=
  if char = '1' then 1
  else if char = '2' then 2
  else if char = '3' then 3
  else if char = '4' then 4
  else if char = 'Q' then 5
  else if char = 'W' then 6
  else if char = 'E' then 7
  else if char = 'R' then 8
  else if char = 'A' then 9
  else if char = 'S' then 10
  else if char = 'D' then 11
  else if char = 'F' then 12
  else if char = 'Z' then 13
  else if char = 'X' then 14
  else if char = 'C' then 15
  else if char = 'V' then 16
  else 0

/-- The runes that appear as keys of the `keyMap` table. -/
def mappedRunes : List Char :=
  ['1', '2', '3', '4', 'Q', 'W', 'E', 'R', 'A', 'S', 'D', 'F', 'Z', 'X', 'C', 'V']

/-- The font sprite data copied into low memory by `New`. -/
def fontSet : List Nat :=
  [0xF0, 0x90, 0x90, 0x90, 0xF0,
   0x20, 0x60, 0x20, 0x20, 0x70,
   0xF0, 0x10, 0xF0, 0x80, 0xF0,
   0xF0, 0x10, 0xF0, 0x10, 0xF0,
   0x90, 0x90, 0xF0, 0x10, 0x10,
   0xF0, 0x80, 0xF0, 0x10, 0xF0,
   0xF0, 0x80, 0xF0, 0x90, 0xF0,
   0xF0, 0x10, 0x20, 0x40, 0x40,
   0xF0, 0x90, 0xF0, 0x90, 0xF0,
   0xF0, 0x90, 0xF0, 0x10, 0xF0,
   0xF0, 0x90, 0xF0, 0x90, 0x90,
   0xE0, 0x90, 0xE0, 0x90, 0xE0,
   0xF0, 0x80, 0x80, 0x80, 0xF0,
   0xE0, 0x90, 0x90, 0x90, 0xE0,
   0xF0, 0x80, 0xF0, 0x80, 0xF0,
   0xF0, 0x80, 0xF0, 0x80, 0x80]

/-- The `for i, b := range fontSet { memory[i] = b }` loop of `New`
(indices 0..79, always in range of the 4096-byte memory). -/
def writeFont : Nat → List Nat → Slice → Slice
  | _, [], m => m
  | k, b :: bs, m => writeFont (k + 1) bs (m.ovw k b)

/-- The `New` constructor: zeroed state, font at low memory, PC = 0x200. -/
def new : Chip where
  memory := writeFont 0 fontSet (Slice.make 4096)
  display := Slice.make (64 * 32)
  stack := Slice.make 16
  v := Slice.make 16
  dt := 0
  st := 0
  keys := Slice.make 16
  i := 0
  pc := 0x200
  sp := 0
  currentKey := 0
  drawFlag := false

/-- The copy loop of `LoadRom`: `for i, b := range rom { c.memory[0x200+i] = b }`.
Returns the memory after all writes that happened, plus the fault (if any)
at which the loop aborted — Go mutates in place, so the writes before an
index-out-of-range panic have already taken effect. -/
def copyRom (a : Slice) (start : Nat) : List Nat → Slice × Option Fault
  | [] => (a, none)
  | b :: bs =>
    if start < a.size then copyRom (a.ovw start b) (start + 1) bs
    else (a, some Fault.outOfRange)

/-- `LoadRom`: copy the ROM bytes verbatim to 0x200 onward. There is no
length check in the source; an overlong ROM runs off the end of memory. -/
def LoadRom (c : Chip) (rom : List Nat) : Chip × Option Fault :=
  let p := copyRom c.memory 0x200 rom
  ({ c with memory := p.1 }, p.2)

/-- `KeyDown`: latch the mapped key index and record it as current. -/
def KeyDown (c : Chip) (char : Char) : Except Fault Chip := do
  let idx := keyMap char
  let ks ← wr c.keys idx 1
  Except.ok { c with keys := ks, currentKey := idx }

/-- `KeyUp`: clear the mapped key index and the current key. -/
def KeyUp (c : Chip) (char : Char) : Except Fault Chip := do
  let idx := keyMap char
  let ks ← wr c.keys idx 0
  Except.ok { c with keys := ks, currentKey := 0 }

/-- `clearDisplay`: zero every display cell and set the draw flag. -/
def clearDisplay (c : Chip) : Chip :=
  { c with display := ⟨c.display.size, fun _ => 0⟩, drawFlag := true }

/-- One iteration of the inner `p` loop of `displaySprite`: test sprite
bit `p` of row `q` and, when set, XOR it into the display. Note the
faithful reproduction of the source's behavior: the wrapped column `tx`
is computed but never used, and the write index is the byte expression
`ty*64 + x` (byte arithmetic, unwrapped origin column `x`). -/
def drawPixel (c : Chip) (x y i q p : Nat) : Except Fault Chip := do
  let row ← rd c.memory (b8 (i + q))
  let pix := row &&& (0x80 >>> p)
  if pix ≠ 0 then
    let tx0 := b8 (x + p)
    let ty0 := b8 (y + q)
    let tx := if tx0 ≥ 64 then tx0 - 64 else tx0
    let ty := if ty0 ≥ 32 then ty0 - 32 else ty0
    let idx := b8 (ty * 64 + x)
    let cur ← rd c.display idx
    let v1 ← (if cur = 1 then wr c.v 0xF 1 else Except.ok c.v)
    let cur2 ← rd c.display idx
    let d1 ← wr c.display idx (cur2 ^^^ 1)
    let _ := tx
    Except.ok { c with v := v1, display := d1 }
  else
    Except.ok c

/-- The inner `for p := 0; p < 8; p++` loop of `displaySprite`. -/
def drawRow (c : Chip) (x y i q : Nat) : List Nat → Except Fault Chip
  | [] => Except.ok c
  | p :: ps => do
    let c1 ← drawPixel c x y i q p
    drawRow c1 x y i q ps

/-- The outer `for q := 0; q < n; q++` loop of `displaySprite`. -/
def drawRows (c : Chip) (x y i : Nat) : List Nat → Except Fault Chip
  | [] => Except.ok c
  | q :: qs => do
    let c1 ← drawRow c x y i q (List.range 8)
    drawRows c1 x y i qs

/-- `displaySprite(x, y, i, n)`: clear VF, then blit `n` sprite rows,
setting the draw flag at the end. All four parameters are Go `byte`s —
in particular `i` is the index register already truncated to 8 bits at
the call site (`byte(c.i)`). -/
def displaySprite (c : Chip) (x y i n : Nat) : Except Fault Chip := do
  let v0 ← wr c.v 0xF 0
  let c1 ← drawRows { c with v := v0 } x y i (List.range n)
  Except.ok { c1 with drawFlag := true }

/-- The `Fx55` loop: store V0..Vlast into memory starting at I. -/
def storeRegs (c : Chip) : List Nat → Except Fault Chip
  | [] => Except.ok c
  | k :: ks => do
    let vk ← rd c.v k
    let m ← wr c.memory (b16 (c.i + k)) vk
    storeRegs { c with memory := m } ks

/-- The `Fx65` loop: load V0..Vlast from memory starting at I. -/
def loadRegs (c : Chip) : List Nat → Except Fault Chip
  | [] => Except.ok c
  | k :: ks => do
    let mk ← rd c.memory (b16 (c.i + k))
    let v1 ← wr c.v k mk
    loadRegs { c with v := v1 } ks

/-- `8xy0` — LD Vx, Vy: `c.v[x] = c.v[y]`. -/
def ld8 (c : Chip) (x y : Nat) : Except Fault Chip := do
  let vy ← rd c.v y
  let v1 ← wr c.v x vy
  Except.ok { c with v := v1 }

/-- `8xy1` — OR Vx, Vy: `c.v[x] |= c.v[y]`. -/
def or8 (c : Chip) (x y : Nat) : Except Fault Chip := do
  let vx ← rd c.v x
  let vy ← rd c.v y
  let v1 ← wr c.v x (vx ||| vy)
  Except.ok { c with v := v1 }

/-- `8xy2` — AND Vx, Vy: `c.v[x] &= c.v[y]`. -/
def and8 (c : Chip) (x y : Nat) : Except Fault Chip := do
  let vx ← rd c.v x
  let vy ← rd c.v y
  let v1 ← wr c.v x (vx &&& vy)
  Except.ok { c with v := v1 }

/-- `8xy3` — XOR Vx, Vy: `c.v[x] ^= c.v[y]`. -/
def xor8 (c : Chip) (x y : Nat) : Except Fault Chip := do
  let vx ← rd c.v x
  let vy ← rd c.v y
  let v1 ← wr c.v x (vx ^^^ vy)
  Except.ok { c with v := v1 }

/-- `8xy4` — ADD Vx, Vy with carry flag: `temp := uint16(v[x]) + uint16(v[y])`,
`VF = 1` iff `temp > 0xFF`, then `v[x] = uint8(temp)`. -/
def add8 (c : Chip) (x y : Nat) : Except Fault Chip := do
  let vx ← rd c.v x
  let vy ← rd c.v y
  let temp := vx + vy
  let v1 ← wr c.v 0xF (if temp > 0xFF then 1 else 0)
  let v2 ← wr v1 x (b8 temp)
  Except.ok { c with v := v2 }

/-- `8xy5` — SUB Vx, Vy: `VF = 1` iff `v[x] > v[y]` (strict, as in the
source), then `v[x] = v[x] - v[y]` (byte subtraction, operands re-read
after the flag write, as in the source). -/
def sub8 (c : Chip) (x y : Nat) : Except Fault Chip := do
  let vx ← rd c.v x
  let vy ← rd c.v y
  let v1 ← wr c.v 0xF (if vx > vy then 1 else 0)
  let vx2 ← rd v1 x
  let vy2 ← rd v1 y
  let v2 ← wr v1 x (b8 (vx2 + 256 - vy2))
  Except.ok { c with v := v2 }

/-- `8xy6` — SHR Vx: `VF = v[x] & 1`, then `v[x] >>= 1` (operand re-read
after the flag write, as in the source). -/
def shr8 (c : Chip) (x : Nat) : Except Fault Chip := do
  let vx ← rd c.v x
  let v1 ← wr c.v 0xF (if vx &&& 0b00000001 = 1 then 1 else 0)
  let vx2 ← rd v1 x
  let v2 ← wr v1 x (vx2 >>> 1)
  Except.ok { c with v := v2 }

/-- `8xy7` — SUBN Vx, Vy: `VF = 1` iff `v[y] > v[x]`, then
`v[x] = v[y] - v[x]` (operands re-read after the flag write). -/
def subn8 (c : Chip) (x y : Nat) : Except Fault Chip := do
  let vx ← rd c.v x
  let vy ← rd c.v y
  let v1 ← wr c.v 0xF (if vy > vx then 1 else 0)
  let vx2 ← rd v1 x
  let vy2 ← rd v1 y
  let v2 ← wr v1 x (b8 (vy2 + 256 - vx2))
  Except.ok { c with v := v2 }

/-- `8xyE` — SHL Vx: the source tests `v[x] & 0b10000000 == 1` (the mask
result is 0 or 128, never 1), then `v[x] <<= 1`. -/
def shl8 (c : Chip) (x : Nat) : Except Fault Chip := do
  let vx ← rd c.v x
  let v1 ← wr c.v 0xF (if vx &&& 0b10000000 = 1 then 1 else 0)
  let vx2 ← rd v1 x
  let v2 ← wr v1 x (b8 (vx2 <<< 1))
  Except.ok { c with v := v2 }

/-- The `0x0000` case of the switch: CLS (`00E0`), RET (`00EE`), or
SYS (any other `0nnn`), which is ignored by the source ("It is ignored
by modern interpreters"). RET has no underflow guard: it reads
`stack[SP]` and decrements the byte SP, wrapping 0 to 255. -/
def sys0 (c : Chip) (opcode : Nat) : Except Fault Chip :=
  let sub := opcode &&& 0x0FFF
  if sub = 0x00E0 then
    Except.ok (clearDisplay c)
  else if sub = 0x00EE then do
    let top ← rd c.stack c.sp
    Except.ok { c with pc := top, sp := b8 (c.sp + 255) }
  else
    Except.ok c

/-- `1nnn` — JP addr: `c.pc = opcode & 0x0FFF`. -/
def jp1 (c : Chip) (opcode : Nat) : Except Fault Chip :=
  Except.ok { c with pc := opcode &&& 0x0FFF }

/-- `2nnn` — CALL addr: `c.sp++`, `c.stack[c.sp] = c.pc`,
`c.pc = opcode & 0x0FFF`. No overflow guard: SP 15 increments to 16 and
the stack write faults. -/
def call2 (c : Chip) (opcode : Nat) : Except Fault Chip := do
  let sp1 := b8 (c.sp + 1)
  let st1 ← wr c.stack sp1 c.pc
  Except.ok { c with sp := sp1, stack := st1, pc := opcode &&& 0x0FFF }

/-- `3xkk` — SE Vx, byte: skip (`pc += 2`) if `v[x] == kk`. -/
def se3 (c : Chip) (x kk : Nat) : Except Fault Chip := do
  let vx ← rd c.v x
  if vx = kk then Except.ok { c with pc := b16 (c.pc + 2) } else Except.ok c

/-- `4xkk` — SNE Vx, byte: skip (`pc += 2`) if `v[x] != kk`. -/
def sne4 (c : Chip) (x kk : Nat) : Except Fault Chip := do
  let vx ← rd c.v x
  if vx ≠ kk then Except.ok { c with pc := b16 (c.pc + 2) } else Except.ok c

/-- `5xy0` — SE Vx, Vy: skip (`pc += 2`) if `v[x] == v[y]`. -/
def se5 (c : Chip) (x y : Nat) : Except Fault Chip := do
  let vx ← rd c.v x
  let vy ← rd c.v y
  if vx = vy then Except.ok { c with pc := b16 (c.pc + 2) } else Except.ok c

/-- `6xkk` — LD Vx, byte: `v[x] = kk`. -/
def ld6 (c : Chip) (x kk : Nat) : Except Fault Chip := do
  let v1 ← wr c.v x kk
  Except.ok { c with v := v1 }

/-- `7xkk` — ADD Vx, byte: `v[x] += kk` (byte wrap, no flag). -/
def add7 (c : Chip) (x kk : Nat) : Except Fault Chip := do
  let vx ← rd c.v x
  let v1 ← wr c.v x (b8 (vx + kk))
  Except.ok { c with v := v1 }

/-- The inner switch of the `0x8000` case, on `opcode & 0x000F`. -/
def alu8 (c : Chip) (opcode x y : Nat) : Except Fault Chip :=
  let sub := opcode &&& 0x000F
  if sub = 0x0000 then ld8 c x y
  else if sub = 0x0001 then or8 c x y
  else if sub = 0x0002 then and8 c x y
  else if sub = 0x0003 then xor8 c x y
  else if sub = 0x0004 then add8 c x y
  else if sub = 0x0005 then sub8 c x y
  else if sub = 0x0006 then shr8 c x
  else if sub = 0x0007 then subn8 c x y
  else if sub = 0x000E then shl8 c x
  else Except.error (Fault.unrecognized opcode)

/-- `9xy0` — SNE Vx, Vy: skip (`pc += 2`) if `v[x] != v[y]`. -/
def sne9 (c : Chip) (x y : Nat) : Except Fault Chip := do
  let vx ← rd c.v x
  let vy ← rd c.v y
  if vx ≠ vy then Except.ok { c with pc := b16 (c.pc + 2) } else Except.ok c

/-- `Annn` — LD I, addr: `c.i = opcode & 0x0FFF`. -/
def ldiA (c : Chip) (opcode : Nat) : Except Fault Chip :=
  Except.ok { c with i := opcode &&& 0x0FFF }

/-- `Bnnn` — JP V0, addr: `c.pc = (opcode & 0x0FFF) + uint16(v[0])`. -/
def jpvB (c : Chip) (opcode : Nat) : Except Fault Chip := do
  let v0 ← rd c.v 0
  Except.ok { c with pc := b16 ((opcode &&& 0x0FFF) + v0) }

/-- `Cxkk` — RND Vx, byte: `v[x] = byte(rand.Intn(256)) & kk`, with the
random byte threaded in as `rnd`. -/
def rndC (rnd : Nat) (c : Chip) (x kk : Nat) : Except Fault Chip := do
  let v1 ← wr c.v x (b8 rnd &&& kk)
  Except.ok { c with v := v1 }

/-- `Dxyn` — DRW Vx, Vy, nibble: read the operand registers and blit,
truncating the sprite address to a byte (`byte(c.i)`) as the source's
call site does. -/
def drwD (c : Chip) (x y n : Nat) : Except Fault Chip := do
  let vx ← rd c.v x
  let vy ← rd c.v y
  displaySprite c vx vy (b8 c.i) n

/-- The `0xE000` case: SKP (`Ex9E`) and SKNP (`ExA1`) read `v[x]` and
then call `isPressed`, which is `panic("not implemented yet!")` in the
source; other subcodes are unrecognized. -/
def skpE (c : Chip) (opcode x : Nat) : Except Fault Chip :=
  let sub := opcode &&& 0x00FF
  if sub = 0x009E then do
    let _ ← rd c.v x
    Except.error Fault.notImplemented
  else if sub = 0x00A1 then do
    let _ ← rd c.v x
    Except.error Fault.notImplemented
  else Except.error (Fault.unrecognized opcode)

/-- The `0xF000` case: timers, `waitKey` (a "not implemented yet!"
panic), index arithmetic, font lookup, BCD, and the register
store/load loops; other subcodes are unrecognized. -/
def miscF (c : Chip) (opcode x : Nat) : Except Fault Chip :=
  let sub := opcode &&& 0x00FF
  if sub = 0x0007 then do
    let v1 ← wr c.v x c.dt
    Except.ok { c with v := v1 }
  else if sub = 0x000A then
    Except.error Fault.notImplemented
  else if sub = 0x0015 then do
    let vx ← rd c.v x
    Except.ok { c with dt := vx }
  else if sub = 0x0018 then do
    let vx ← rd c.v x
    Except.ok { c with st := vx }
  else if sub = 0x001E then do
    let vx ← rd c.v x
    Except.ok { c with i := b16 (c.i + vx) }
  else if sub = 0x0029 then do
    let vx ← rd c.v x
    Except.ok { c with i := b16 (vx * 5) }
  else if sub = 0x0033 then do
    let val ← rd c.v x
    let m1 ← wr c.memory (b16 (c.i + 2)) (val % 10)
    let m2 ← wr m1 (b16 (c.i + 1)) ((val / 10) % 10)
    let m3 ← wr m2 c.i ((val / 10 / 10) % 10)
    Except.ok { c with memory := m3 }
  else if sub = 0x0055 then
    storeRegs c (List.range (x + 1))
  else if sub = 0x0065 then
    loadRegs c (List.range (x + 1))
  else Except.error (Fault.unrecognized opcode)

/-- `nextOp`: fetch the two bytes at PC, form the instruction word, and
execute one instruction via the `switch`, exactly as the source does
(including its quirks: no baseline PC increment, `>> 2` in the
second-register extraction, `byte(c.i)` at the `Dxyn` call site, the
`& 0x80 == 1` test in `SHL`, unguarded stack arithmetic in `CALL`/`RET`,
and the silently ignored `SYS` instructions). Each case body of the
source's `switch` is factored into its own definition above. -/
def nextOp (rnd : Nat) (c : Chip) : Except Fault Chip := do
  let pc := c.pc
  let hi ← rd c.memory pc
  let lo ← rd c.memory (b16 (pc + 1))
  let opcode := b16 ((hi <<< 8) ||| lo)
  let fam := opcode &&& 0xF000
  if fam = 0x0000 then sys0 c opcode
  else if fam = 0x1000 then jp1 c opcode
  else if fam = 0x2000 then call2 c opcode
  else if fam = 0x3000 then se3 c (hi &&& 0x0F) lo
  else if fam = 0x4000 then sne4 c (hi &&& 0x0F) lo
  else if fam = 0x5000 then se5 c (hi &&& 0x0F) ((lo &&& 0xF0) >>> 2)
  else if fam = 0x6000 then ld6 c (hi &&& 0x0F) lo
  else if fam = 0x7000 then add7 c (hi &&& 0x0F) lo
  else if fam = 0x8000 then alu8 c opcode (hi &&& 0x0F) ((lo &&& 0xF0) >>> 2)
  else if fam = 0x9000 then sne9 c (hi &&& 0x0F) ((lo &&& 0xF0) >>> 2)
  else if fam = 0xA000 then ldiA c opcode
  else if fam = 0xB000 then jpvB c opcode
  else if fam = 0xC000 then rndC rnd c (hi &&& 0x0F) lo
  else if fam = 0xD000 then drwD c (hi &&& 0x0F) ((lo &&& 0xF0) >>> 2) (lo &&& 0x0F)
  else if fam = 0xE000 then skpE c opcode (hi &&& 0x0F)
  else if fam = 0xF000 then miscF c opcode (hi &&& 0x0F)
  else Except.error (Fault.unrecognized opcode)

/-- Iterate `nextOp` a fixed number of times (the `Cycle` loop of the
source, with rendering and sleeping stripped). -/
def stepN (rnd : Nat) : Nat → Chip → Except Fault Chip
  | 0, c => Except.ok c
  | n + 1, c => do
    let c1 ← nextOp rnd c
    stepN rnd n c1

/-! ## Generic reduction helpers -/

/-- Reduce a successful `Except` bind (the only rewriting rule needed to
push symbolic states through `nextOp`'s monadic fetch-execute chain). -/
theorem bindOk {α β : Type} (a : α) (k : α → Except Fault β) :
    (Except.ok a : Except Fault α) >>= k = k a := rfl

/-! ## Machine states used by the individual claims -/

/-- `LD V0, 0x05` (word `0x6005`) at the reset PC. -/
def ldState : Chip :=
  { new with memory := (new.memory.ovw 0x200 0x60).ovw 0x201 0x05 }

/-- `SE V0, 0x00` (word `0x3000`) at the reset PC; `V0 = 0`, so the skip
condition holds. -/
def seState : Chip :=
  { new with memory := (new.memory.ovw 0x200 0x30).ovw 0x201 0x00 }

/-- `DRW V0, V1, 1` (word `0xD011`) at the reset PC with `V0 = 5`,
`V1 = 0` (the code's second-register selector also reads 0 from `V4`),
and `I = 0x10B`: `memory[0x10B] = 0` (empty sprite row per the claim),
while `memory[0x10B mod 256] = memory[0x0B] = 0x10` (a font byte). -/
def drwState : Chip :=
  { new with i := 0x10B, v := new.v.ovw 0 5,
             memory := (new.memory.ovw 0x200 0xD0).ovw 0x201 0x11 }

/-- `LD V0, V1` (word `0x8010`) at the reset PC with `V1 = 7` and
`V4 = 9`. -/
def selState : Chip :=
  { new with memory := (new.memory.ovw 0x200 0x80).ovw 0x201 0x10,
             v := (new.v.ovw 1 7).ovw 4 9 }

/-- `LD V0, V4` (word `0x8040`) at the reset PC: the code's `>> 2`
extraction computes register selector `(0x40 & 0xF0) >> 2 = 16`. -/
def seloobState : Chip :=
  { new with memory := (new.memory.ovw 0x200 0x80).ovw 0x201 0x40 }

/-- `CALL 0x200` (word `0x2200`) at the reset PC: each step re-executes
the same CALL, nesting one level deeper. -/
def callState : Chip :=
  { new with memory := (new.memory.ovw 0x200 0x22).ovw 0x201 0x00 }

/-- `RET` (word `0x00EE`) at the reset PC with the empty stack
(`SP = 0`) of the initial state. -/
def retState : Chip :=
  { new with memory := (new.memory.ovw 0x200 0x00).ovw 0x201 0xEE }

/-- A 3585-byte ROM (one byte over the 4096 − 512 = 3584 capacity). -/
def rom3585 : List Nat := List.replicate 3585 7

/-! ## C1 — PC advancement -/

/-- C1: the claim says a non-control instruction advances PC by exactly
2 and a satisfied conditional skip by exactly 4. The code has no
baseline PC increment: after `LD V0, 5` the PC is still 0x200 (the
instruction did execute: `V0 = 5`), and after a satisfied `SE V0, 0`
the PC is 0x202 (+2, not +4). -/
theorem C1_pc_stuck :
    (nextOp 0 ldState).toOption.map (fun s => (s.pc, s.v.data 0)) = some (0x200, 5)
    ∧ (nextOp 0 seState).toOption.map Chip.pc = some 0x202 :=
  ⟨rfl, rfl⟩

/-! ## C2 — sprite blit -/

/-- C2: the claim says DRW reads the sprite from the full 12-bit address
I and XORs each set bit into the wrapped target column. With
`I = 0x10B` (where memory holds 0) the claim predicts no pixel change
and VF = 0; the code instead reads the font byte `memory[0x0B] = 0x10`
(address truncated by `byte(c.i)`) and writes the single set bit (bit
p = 3, claim target column 5 + 3 = 8) to the unwrapped origin column:
cell (5, 0) is set, cell (8, 0) is not. -/
theorem C2_sprite_blit_defects :
    (nextOp 0 drwState).toOption.map
        (fun s => (s.display.data 5, s.display.data 8, s.v.data 0xF, s.drawFlag,
                   s.memory.data 0x10B, s.memory.data 0x0B)) =
      some (1, 0, 0, true, 0, 0x10) :=
  rfl

/-! ## C3 — second-register extraction -/

/-- C3: the claim says the second register selector is
`(byte2 & 0xF0) >> 4`. The code shifts by 2: executing `LD V0, V1`
(word `0x8010`, so `(0x10 & 0xF0) >> 2 = 4`) copies `V4 = 9` rather
than `V1 = 7` into `V0`; and for `LD V0, V4` (word `0x8040`) the
selector is `(0x40 & 0xF0) >> 2 = 16`, one past the register file, so
the register read faults instead of reading `V4`. -/
theorem C3_y_extraction_shift2 :
    (nextOp 0 selState).toOption.map (fun s => s.v.data 0) = some 9
    ∧ nextOp 0 seloobState = Except.error Fault.outOfRange :=
  ⟨rfl, rfl⟩

/-! ## C4 — stack bounds -/

/-- C4: the claim says 16 nested CALLs succeed, a 17th yields
StackOverflow, and RET on an empty stack yields StackUnderflow. In the
code, CALL pre-increments SP and then writes `stack[SP]`, so slot 0 is
never used: 15 nested CALLs reach SP = 15, the 16th writes `stack[16]`
— an out-of-range fault, not a StackOverflow error; and RET with
SP = 0 reads `stack[0]` (= 0) into PC and wraps SP to 255 instead of a
StackUnderflow error. -/
theorem C4_stack_unguarded :
    (stepN 0 15 callState).toOption.map (fun s => (s.sp, s.pc)) = some (15, 0x200)
    ∧ stepN 0 16 callState = Except.error Fault.outOfRange
    ∧ (nextOp 0 retState).toOption.map (fun s => (s.sp, s.pc)) = some (255, 0) :=
  ⟨rfl, rfl, rfl⟩

/-! ## C9 — ROM loading -/

/-- C9: the claim says a ROM longer than 3584 bytes is rejected with a
RomTooLarge error before any byte is written. The code has no length
check: loading a 3585-byte ROM copies the first 3584 bytes into
0x200..0xFFF and then faults out of range at `memory[0x1000]` — a
partial copy followed by a panic, with no RomTooLarge error anywhere in
the code. (A 3584-byte ROM is copied without fault, as the claim's
second half says.) -/
theorem C9_loadrom_overflow :
    (LoadRom new rom3585).2 = some Fault.outOfRange
    ∧ (LoadRom new rom3585).1.memory.data 0x200 = 7
    ∧ (LoadRom new rom3585).1.memory.data 0xFFF = 7
    ∧ (LoadRom new (List.replicate 3584 9)).2 = none := by
  decide!

/-! ## C6 / C7 / C8 — 8xy_ arithmetic semantics

The states fix the instruction word (`SUB V0, V4`, `ADD V0, V4`,
`SHL V0`; the code's `>> 2` extraction turns the y-nibble 1 into
register selector 4) and quantify over the operand register values. -/

/-- `SUB V0, V4` (word `0x8015`) at the reset PC with `V0 = a`,
`V4 = b`. -/
def subState (a b : Nat) : Chip :=
  { new with memory := (new.memory.ovw 0x200 0x80).ovw 0x201 0x15,
             v := ⟨16, fun j => if j = 0 then a else if j = 4 then b else 0⟩ }

/-- `ADD V0, V4` (word `0x8014`) at the reset PC with `V0 = a`,
`V4 = b`. -/
def addState (a b : Nat) : Chip :=
  { new with memory := (new.memory.ovw 0x200 0x80).ovw 0x201 0x14,
             v := ⟨16, fun j => if j = 0 then a else if j = 4 then b else 0⟩ }

/-- `SHL V0` (word `0x801E`) at the reset PC with `V0 = k`. -/
def shlState (k : Nat) : Chip :=
  { new with memory := (new.memory.ovw 0x200 0x80).ovw 0x201 0x1E,
             v := ⟨16, fun j => if j = 0 then k else 0⟩ }

theorem subState_pc (a b : Nat) : (subState a b).pc = 0x200 := rfl

theorem subState_msize (a b : Nat) : (subState a b).memory.size = 4096 := rfl

theorem subState_m200 (a b : Nat) : (subState a b).memory.data 0x200 = 0x80 := rfl

theorem subState_m201 (a b : Nat) : (subState a b).memory.data 0x201 = 0x15 := rfl

theorem subState_vsize (a b : Nat) : (subState a b).v.size = 16 := rfl

theorem subState_vdata (a b : Nat) :
    (subState a b).v.data = fun j => if j = 0 then a else if j = 4 then b else 0 := rfl

theorem addState_pc (a b : Nat) : (addState a b).pc = 0x200 := rfl

theorem addState_msize (a b : Nat) : (addState a b).memory.size = 4096 := rfl

theorem addState_m200 (a b : Nat) : (addState a b).memory.data 0x200 = 0x80 := rfl

theorem addState_m201 (a b : Nat) : (addState a b).memory.data 0x201 = 0x14 := rfl

theorem addState_vsize (a b : Nat) : (addState a b).v.size = 16 := rfl

theorem addState_vdata (a b : Nat) :
    (addState a b).v.data = fun j => if j = 0 then a else if j = 4 then b else 0 := rfl

theorem shlState_pc (k : Nat) : (shlState k).pc = 0x200 := rfl

theorem shlState_msize (k : Nat) : (shlState k).memory.size = 4096 := rfl

theorem shlState_m200 (k : Nat) : (shlState k).memory.data 0x200 = 0x80 := rfl

theorem shlState_m201 (k : Nat) : (shlState k).memory.data 0x201 = 0x1E := rfl

theorem shlState_vsize (k : Nat) : (shlState k).v.size = 16 := rfl

theorem shlState_vdata (k : Nat) :
    (shlState k).v.data = fun j => if j = 0 then k else 0 := rfl

theorem land_8015_F000 : (0x8015 &&& 0xF000 : Nat) = 0x8000 := by decide

theorem land_8014_F000 : (0x8014 &&& 0xF000 : Nat) = 0x8000 := by decide

theorem land_801E_F000 : (0x801E &&& 0xF000 : Nat) = 0x8000 := by decide

theorem land_80_0F : (0x80 &&& 0x0F : Nat) = 0 := by decide

theorem land_15_F0 : (0x15 &&& 0xF0 : Nat) = 0x10 := by decide

theorem land_14_F0 : (0x14 &&& 0xF0 : Nat) = 0x10 := by decide

theorem land_1E_F0 : (0x1E &&& 0xF0 : Nat) = 0x10 := by decide

theorem land_8015_000F : (0x8015 &&& 0x000F : Nat) = 5 := by decide

theorem land_8014_000F : (0x8014 &&& 0x000F : Nat) = 4 := by decide

theorem land_801E_000F : (0x801E &&& 0x000F : Nat) = 0xE := by decide

/-- Decoding `0x8015` dispatches to the `SUB` handler with the code's
operand selectors 0 and 4. -/
theorem subState_step (a b : Nat) :
    nextOp 0 (subState a b) = sub8 (subState a b) 0 4 := by
  simp only [nextOp, alu8, rd, subState_pc, subState_msize, subState_m200, subState_m201,
             b16, b8, bindOk, land_8015_F000, land_80_0F, land_15_F0, land_8015_000F,
             Nat.reduceMod, Nat.reduceAdd, Nat.reduceShiftLeft, Nat.reduceShiftRight,
             Nat.reduceOr, Nat.reduceLT, Nat.reduceEqDiff, reduceIte]

/-- Decoding `0x8014` dispatches to the `ADD` handler with the code's
operand selectors 0 and 4. -/
theorem addState_step (a b : Nat) :
    nextOp 0 (addState a b) = add8 (addState a b) 0 4 := by
  simp only [nextOp, alu8, rd, addState_pc, addState_msize, addState_m200, addState_m201,
             b16, b8, bindOk, land_8014_F000, land_80_0F, land_14_F0, land_8014_000F,
             Nat.reduceMod, Nat.reduceAdd, Nat.reduceShiftLeft, Nat.reduceShiftRight,
             Nat.reduceOr, Nat.reduceLT, Nat.reduceEqDiff, reduceIte]

/-- Decoding `0x801E` dispatches to the `SHL` handler with the code's
operand selector 0. -/
theorem shlState_step (k : Nat) :
    nextOp 0 (shlState k) = shl8 (shlState k) 0 := by
  simp only [nextOp, alu8, rd, shlState_pc, shlState_msize, shlState_m200, shlState_m201,
             b16, b8, bindOk, land_801E_F000, land_80_0F, land_1E_F0, land_801E_000F,
             Nat.reduceMod, Nat.reduceAdd, Nat.reduceShiftLeft, Nat.reduceShiftRight,
             Nat.reduceOr, Nat.reduceLT, Nat.reduceEqDiff, reduceIte]

/-- C6 counterexample: the claim says SUB sets VF = 1 whenever
Vx ≥ Vy, including Vx = Vy. Executing `SUB V0, V4` with
V0 = V4 = 5 (so Vx ≥ Vy holds), the code sets VF = 0. -/
theorem C6_sub_eq_cex :
    (5 : Nat) ≥ 5
    ∧ (nextOp 0 (subState 5 5)).toOption.map (fun s => (s.v.data 0xF, s.v.data 0)) =
        some (0, 0) :=
  ⟨Nat.le_refl 5, rfl⟩

/-- C6 (amended): for all byte values a = Vx and b = Vy, `SUB Vx, Vy`
sets VF to 1 iff a > b strictly (so VF = 0 when a = b), and sets Vx to
(a − b) mod 256. -/
theorem C6_sub_strict (a b : Nat) (ha : a < 256) (hb : b < 256) :
    (nextOp 0 (subState a b)).toOption.map (fun s => (s.v.data 0xF, s.v.data 0)) =
      some (if b < a then 1 else 0, (a + 256 - b) % 256) := by
  rw [subState_step]
  simp [sub8, rd, wr, subState_vsize, subState_vdata, Slice.ovw, b8, bindOk, Except.toOption]

/-- C6 witness: the amended SUB semantics at the concrete byte pair
(200, 70). -/
theorem C6_sub_strict_w :
    (nextOp 0 (subState 200 70)).toOption.map (fun s => (s.v.data 0xF, s.v.data 0)) =
      some (if (70 : Nat) < 200 then 1 else 0, (200 + 256 - 70) % 256) :=
  C6_sub_strict 200 70 (by decide) (by decide)

/-- C7: the claim says SHL sets VF to the pre-shift most-significant
bit of Vx. The code tests `v[x] & 0b10000000 == 1`, which never holds
(the mask result is 0 or 128), so VF is 0 for every byte value of Vx —
in particular for Vx = 0x80, where the claim requires VF = 1. The
shifted value itself matches the claim. -/
theorem C7_shl_flag_never_set (k : Nat) (hk : k < 256) :
    (nextOp 0 (shlState k)).toOption.map (fun s => (s.v.data 0xF, s.v.data 0)) =
      some (0, (k <<< 1) % 256) := by
  rw [shlState_step]
  have hne : k &&& 0b10000000 ≠ 1 := by
    have h128 : (128 : Nat) = 2 ^ 7 := by norm_num
    rw [h128, Nat.and_two_pow]
    rcases Bool.eq_false_or_eq_true (k.testBit 7) with h | h <;> simp [h]
  simp [shl8, rd, wr, shlState_vsize, shlState_vdata, Slice.ovw, b8, bindOk,
        Except.toOption, hne]

/-- C7 witness: the flag defect at the claim's failing input
Vx = 0x80: VF = 0 (the claim requires 1) and V0 = 0x00. -/
theorem C7_shl_flag_never_set_w :
    (nextOp 0 (shlState 0x80)).toOption.map (fun s => (s.v.data 0xF, s.v.data 0)) =
      some (0, (0x80 <<< 1) % 256) :=
  C7_shl_flag_never_set 0x80 (by decide)

/-- C8: for all byte values a = Vx and b = Vy, `ADD Vx, Vy` sets Vx to
(a + b) mod 256 and VF to 1 iff a + b > 255. -/
theorem C8_add_carry (a b : Nat) (ha : a < 256) (hb : b < 256) :
    (nextOp 0 (addState a b)).toOption.map (fun s => (s.v.data 0xF, s.v.data 0)) =
      some (if 255 < a + b then 1 else 0, (a + b) % 256) := by
  rw [addState_step]
  simp [add8, rd, wr, addState_vsize, addState_vdata, Slice.ovw, b8, bindOk, Except.toOption]

/-- C8 witness: the ADD semantics at the concrete byte pair (200, 100):
carry set, result 44. -/
theorem C8_add_carry_w :
    (nextOp 0 (addState 200 100)).toOption.map (fun s => (s.v.data 0xF, s.v.data 0)) =
      some (if 255 < 200 + 100 then 1 else 0, (200 + 100) % 256) :=
  C8_add_carry 200 100 (by decide) (by decide)


/-! ## C10 — key mapping bounds -/

theorem keys_size : new.keys.size = 16 := rfl

/-- C10 counterexample: the claim says KeyDown and KeyUp access the
16-element key-latch array only at indices 0 through 15, yet the table
maps 'V' to 16: `KeyDown('V')` accesses index 16, one past the end, and
faults instead of latching a key. -/
theorem C10_keydown_v_oob :
    keyMap 'V' = 16
    ∧ KeyDown new 'V' = Except.error Fault.outOfRange
    ∧ KeyUp new 'V' = Except.error Fault.outOfRange :=
  ⟨rfl, rfl, rfl⟩

set_option maxHeartbeats 1000000 in
/-- C10 (amended): for every host key rune the latch index is at most
16; a rune absent from the table gives index 0, a mapped rune gives an
index in 1..16 (so no mapped host key ever latches key nibble 0); for
indices up to 15 KeyDown/KeyUp latch that index, and for 'V' (index 16,
one past the end of the 16-element array) they fault out of range. -/
theorem C10_key_indices (ch : Char) :
    keyMap ch ≤ 16
    ∧ (ch ∉ mappedRunes → keyMap ch = 0)
    ∧ (ch ∈ mappedRunes → 1 ≤ keyMap ch)
    ∧ (keyMap ch ≤ 15 →
        KeyDown new ch = Except.ok { new with keys := new.keys.ovw (keyMap ch) 1,
                                              currentKey := keyMap ch }
        ∧ KeyUp new ch = Except.ok { new with keys := new.keys.ovw (keyMap ch) 0,
                                              currentKey := 0 })
    ∧ (keyMap ch = 16 → KeyDown new ch = Except.error Fault.outOfRange
        ∧ KeyUp new ch = Except.error Fault.outOfRange) := by
  by_cases hm : ch ∈ mappedRunes
  · fin_cases hm <;>
      first
        | exact ⟨by decide, fun h => absurd (by decide) h, fun _ => by decide,
                 fun _ => ⟨rfl, rfl⟩, fun h => absurd h (by decide)⟩
        | exact ⟨by decide, fun h => absurd (by decide) h, fun _ => by decide,
                 fun h => absurd h (by decide), fun _ => ⟨rfl, rfl⟩⟩
  · have hne : ¬(ch = '1') ∧ ¬(ch = '2') ∧ ¬(ch = '3') ∧ ¬(ch = '4') ∧ ¬(ch = 'Q')
        ∧ ¬(ch = 'W') ∧ ¬(ch = 'E') ∧ ¬(ch = 'R') ∧ ¬(ch = 'A') ∧ ¬(ch = 'S')
        ∧ ¬(ch = 'D') ∧ ¬(ch = 'F') ∧ ¬(ch = 'Z') ∧ ¬(ch = 'X') ∧ ¬(ch = 'C')
        ∧ ¬(ch = 'V') := by
      simpa [mappedRunes] using hm
    obtain ⟨n1, n2, n3, n4, n5, n6, n7, n8, n9, n10, n11, n12, n13, n14, n15, n16⟩ := hne
    have hk : keyMap ch = 0 := by
      simp [keyMap, n1, n2, n3, n4, n5, n6, n7, n8, n9, n10, n11, n12, n13, n14, n15, n16]
    refine ⟨by omega, fun _ => hk, fun h => absurd h hm, fun _ => ?_, fun h => by omega⟩
    constructor
    · simp [KeyDown, hk, wr, keys_size, bindOk]
    · simp [KeyUp, hk, wr, keys_size, bindOk]

/-- C10 witness: the amended statement at the rune '1' (mapped to
index 1, which is latched by KeyDown). -/
theorem C10_key_indices_w :
    keyMap '1' ≤ 16
    ∧ ('1' ∈ mappedRunes)
    ∧ KeyDown new '1' = Except.ok { new with keys := new.keys.ovw (keyMap '1') 1,
                                             currentKey := keyMap '1' } :=
  ⟨(C10_key_indices '1').1, by decide,
   ((C10_key_indices '1').2.2.2.1 (by decide)).1⟩


/-! ## C5 — decode totality -/

/-- A state holding the instruction word `w` at PC = 0 (all slices
zeroed); used to classify the decoding of every 16-bit word. -/
def wordState (w : Nat) : Chip where
  memory := ⟨4096, fun j => if j = 0 then w >>> 8 else if j = 1 then w &&& 0xFF else 0⟩
  display := Slice.make (64 * 32)
  stack := Slice.make 16
  v := Slice.make 16
  dt := 0
  st := 0
  keys := Slice.make 16
  i := 0
  pc := 0
  sp := 0
  currentKey := 0
  drawFlag := false

/-- Is the step result exactly the `UnrecognizedOpcode` error for
word `w`? -/
def isUnrec (w : Nat) : Except Fault Chip → Bool
  | Except.error (Fault.unrecognized u) => u == w
  | _ => false

/-- Modelled from the spec's canonical instruction table, for
comparison with the code's decoder: the 16-bit words that do not match
any defined family or subfamily — `8xy_` with a low nibble outside
{0..7, E}, `Ex__` with a low byte outside {9E, A1}, and `Fx__` with a
low byte outside {07, 0A, 15, 18, 1E, 29, 33, 55, 65}. Every other
word belongs to a defined family (the whole `0nnn` family counts as
defined: 00E0 is CLS, 00EE is RET, and the rest are SYS). `w >>> 12`
is the word's high nibble, `w` being a 16-bit word. -/
def specUnmatched (w : Nat) : Bool :=
  let hn := w >>> 12
  if hn = 0x8 then
    !(w &&& 0xF == 0x0 || w &&& 0xF == 0x1 || w &&& 0xF == 0x2 || w &&& 0xF == 0x3 ||
      w &&& 0xF == 0x4 || w &&& 0xF == 0x5 || w &&& 0xF == 0x6 || w &&& 0xF == 0x7 ||
      w &&& 0xF == 0xE)
  else if hn = 0xE then
    !(w &&& 0xFF == 0x9E || w &&& 0xFF == 0xA1)
  else if hn = 0xF then
    !(w &&& 0xFF == 0x07 || w &&& 0xFF == 0x0A || w &&& 0xFF == 0x15 ||
      w &&& 0xFF == 0x18 || w &&& 0xFF == 0x1E || w &&& 0xFF == 0x29 ||
      w &&& 0xFF == 0x33 || w &&& 0xFF == 0x55 || w &&& 0xFF == 0x65)
  else false



/-! ### A result is never `UnrecognizedOpcode`

`NotU r` says the step result `r` is not an `UnrecognizedOpcode` error for
any word; it is proved for every handler a defined instruction dispatches
to, so that only the decoder defaults can produce that error. -/

/-- The result `r` is not `Except.error (Fault.unrecognized u)` for any
`u` (it may be a success or any other fault). -/
def NotU {α : Type} (r : Except Fault α) : Prop :=
  ∀ u, r ≠ Except.error (Fault.unrecognized u)

theorem notU_ok {α : Type} (a : α) : NotU (Except.ok a : Except Fault α) := by
  intro u h
  exact Except.noConfusion h

theorem notU_oor {α : Type} : NotU (Except.error Fault.outOfRange : Except Fault α) := by
  intro u h
  injection h with h2
  exact Fault.noConfusion h2

theorem notU_ni {α : Type} : NotU (Except.error Fault.notImplemented : Except Fault α) := by
  intro u h
  injection h with h2
  exact Fault.noConfusion h2

theorem notU_rd (a : Slice) (n : Nat) : NotU (rd a n) := by
  unfold rd
  split
  · exact notU_ok _
  · exact notU_oor

theorem notU_wr (a : Slice) (n x : Nat) : NotU (wr a n x) := by
  unfold wr
  split
  · exact notU_ok _
  · exact notU_oor

theorem bindErr {α β : Type} (e : Fault) (f : α → Except Fault β) :
    (Except.error e : Except Fault α) >>= f = Except.error e := rfl

theorem notU_bind {α β : Type} (x : Except Fault α) (f : α → Except Fault β)
    (hx : NotU x) (hf : ∀ a, NotU (f a)) : NotU (x >>= f) := by
  cases x with
  | ok a => exact hf a
  | error e =>
    rw [bindErr]
    intro u h
    injection h with h2
    exact hx u (congrArg Except.error h2)

theorem notU_sys0 (c : Chip) (opcode : Nat) : NotU (sys0 c opcode) := by
  dsimp only [sys0]
  split
  · exact notU_ok _
  · split
    · exact notU_bind _ _ (notU_rd _ _) fun _ => notU_ok _
    · exact notU_ok _

theorem notU_jp1 (c : Chip) (opcode : Nat) : NotU (jp1 c opcode) := notU_ok _

theorem notU_call2 (c : Chip) (opcode : Nat) : NotU (call2 c opcode) :=
  notU_bind _ _ (notU_wr _ _ _) fun _ => notU_ok _

theorem notU_se3 (c : Chip) (x kk : Nat) : NotU (se3 c x kk) :=
  notU_bind _ _ (notU_rd _ _) fun _ => by split <;> exact notU_ok _

theorem notU_sne4 (c : Chip) (x kk : Nat) : NotU (sne4 c x kk) :=
  notU_bind _ _ (notU_rd _ _) fun _ => by split <;> exact notU_ok _

theorem notU_se5 (c : Chip) (x y : Nat) : NotU (se5 c x y) :=
  notU_bind _ _ (notU_rd _ _) fun _ =>
    notU_bind _ _ (notU_rd _ _) fun _ => by split <;> exact notU_ok _

theorem notU_ld6 (c : Chip) (x kk : Nat) : NotU (ld6 c x kk) :=
  notU_bind _ _ (notU_wr _ _ _) fun _ => notU_ok _

theorem notU_add7 (c : Chip) (x kk : Nat) : NotU (add7 c x kk) :=
  notU_bind _ _ (notU_rd _ _) fun _ => notU_bind _ _ (notU_wr _ _ _) fun _ => notU_ok _

theorem notU_sne9 (c : Chip) (x y : Nat) : NotU (sne9 c x y) :=
  notU_bind _ _ (notU_rd _ _) fun _ =>
    notU_bind _ _ (notU_rd _ _) fun _ => by split <;> exact notU_ok _

theorem notU_ldiA (c : Chip) (opcode : Nat) : NotU (ldiA c opcode) := notU_ok _

theorem notU_jpvB (c : Chip) (opcode : Nat) : NotU (jpvB c opcode) :=
  notU_bind _ _ (notU_rd _ _) fun _ => notU_ok _

theorem notU_rndC (rnd : Nat) (c : Chip) (x kk : Nat) : NotU (rndC rnd c x kk) :=
  notU_bind _ _ (notU_wr _ _ _) fun _ => notU_ok _

theorem notU_ld8 (c : Chip) (x y : Nat) : NotU (ld8 c x y) :=
  notU_bind _ _ (notU_rd _ _) fun _ => notU_bind _ _ (notU_wr _ _ _) fun _ => notU_ok _

theorem notU_or8 (c : Chip) (x y : Nat) : NotU (or8 c x y) :=
  notU_bind _ _ (notU_rd _ _) fun _ => notU_bind _ _ (notU_rd _ _) fun _ =>
    notU_bind _ _ (notU_wr _ _ _) fun _ => notU_ok _

theorem notU_and8 (c : Chip) (x y : Nat) : NotU (and8 c x y) :=
  notU_bind _ _ (notU_rd _ _) fun _ => notU_bind _ _ (notU_rd _ _) fun _ =>
    notU_bind _ _ (notU_wr _ _ _) fun _ => notU_ok _

theorem notU_xor8 (c : Chip) (x y : Nat) : NotU (xor8 c x y) :=
  notU_bind _ _ (notU_rd _ _) fun _ => notU_bind _ _ (notU_rd _ _) fun _ =>
    notU_bind _ _ (notU_wr _ _ _) fun _ => notU_ok _

theorem notU_add8 (c : Chip) (x y : Nat) : NotU (add8 c x y) :=
  notU_bind _ _ (notU_rd _ _) fun _ => notU_bind _ _ (notU_rd _ _) fun _ =>
    notU_bind _ _ (notU_wr _ _ _) fun _ => notU_bind _ _ (notU_wr _ _ _) fun _ => notU_ok _

theorem notU_sub8 (c : Chip) (x y : Nat) : NotU (sub8 c x y) :=
  notU_bind _ _ (notU_rd _ _) fun _ => notU_bind _ _ (notU_rd _ _) fun _ =>
    notU_bind _ _ (notU_wr _ _ _) fun _ => notU_bind _ _ (notU_rd _ _) fun _ =>
      notU_bind _ _ (notU_rd _ _) fun _ => notU_bind _ _ (notU_wr _ _ _) fun _ => notU_ok _

theorem notU_shr8 (c : Chip) (x : Nat) : NotU (shr8 c x) :=
  notU_bind _ _ (notU_rd _ _) fun _ => notU_bind _ _ (notU_wr _ _ _) fun _ =>
    notU_bind _ _ (notU_rd _ _) fun _ => notU_bind _ _ (notU_wr _ _ _) fun _ => notU_ok _

theorem notU_subn8 (c : Chip) (x y : Nat) : NotU (subn8 c x y) :=
  notU_bind _ _ (notU_rd _ _) fun _ => notU_bind _ _ (notU_rd _ _) fun _ =>
    notU_bind _ _ (notU_wr _ _ _) fun _ => notU_bind _ _ (notU_rd _ _) fun _ =>
      notU_bind _ _ (notU_rd _ _) fun _ => notU_bind _ _ (notU_wr _ _ _) fun _ => notU_ok _

theorem notU_shl8 (c : Chip) (x : Nat) : NotU (shl8 c x) :=
  notU_bind _ _ (notU_rd _ _) fun _ => notU_bind _ _ (notU_wr _ _ _) fun _ =>
    notU_bind _ _ (notU_rd _ _) fun _ => notU_bind _ _ (notU_wr _ _ _) fun _ => notU_ok _

theorem notU_drawPixel (c : Chip) (x y i q p : Nat) : NotU (drawPixel c x y i q p) := by
  dsimp only [drawPixel]
  refine notU_bind _ _ (notU_rd _ _) fun row => ?_
  split
  · refine notU_bind _ _ (notU_rd _ _) fun cur => ?_
    refine notU_bind _ _ ?_ fun v1 => ?_
    · split
      · exact notU_wr _ _ _
      · exact notU_ok _
    · refine notU_bind _ _ (notU_rd _ _) fun cur2 => ?_
      refine notU_bind _ _ (notU_wr _ _ _) fun d1 => ?_
      exact notU_ok _
  · exact notU_ok _

theorem notU_drawRow (c : Chip) (x y i q : Nat) (l : List Nat) :
    NotU (drawRow c x y i q l) := by
  induction l generalizing c with
  | nil => exact notU_ok _
  | cons p ps ih =>
    exact notU_bind _ _ (notU_drawPixel _ _ _ _ _ _) fun c1 => ih c1

theorem notU_drawRows (c : Chip) (x y i : Nat) (l : List Nat) :
    NotU (drawRows c x y i l) := by
  induction l generalizing c with
  | nil => exact notU_ok _
  | cons q qs ih =>
    exact notU_bind _ _ (notU_drawRow _ _ _ _ _ _) fun c1 => ih c1

theorem notU_displaySprite (c : Chip) (x y i n : Nat) : NotU (displaySprite c x y i n) :=
  notU_bind _ _ (notU_wr _ _ _) fun _ =>
    notU_bind _ _ (notU_drawRows _ _ _ _ _) fun _ => notU_ok _

theorem notU_drwD (c : Chip) (x y n : Nat) : NotU (drwD c x y n) :=
  notU_bind _ _ (notU_rd _ _) fun _ => notU_bind _ _ (notU_rd _ _) fun _ =>
    notU_displaySprite _ _ _ _ _

theorem notU_storeRegs (c : Chip) (l : List Nat) : NotU (storeRegs c l) := by
  induction l generalizing c with
  | nil => exact notU_ok _
  | cons k ks ih =>
    exact notU_bind _ _ (notU_rd _ _) fun vk =>
      notU_bind _ _ (notU_wr _ _ _) fun m => ih _

theorem notU_loadRegs (c : Chip) (l : List Nat) : NotU (loadRegs c l) := by
  induction l generalizing c with
  | nil => exact notU_ok _
  | cons k ks ih =>
    exact notU_bind _ _ (notU_rd _ _) fun mk =>
      notU_bind _ _ (notU_wr _ _ _) fun v1 => ih _


/-- Fetching reassembles the word: for a 16-bit `w` split into high byte
`w >>> 8` and low byte `w &&& 0xFF`, the fetch expression
`uint16(hi) << 8 | uint16(lo)` gives back `w`. -/
theorem fetchId (w : Nat) (hw : w < 65536) :
    ((w >>> 8) <<< 8 ||| (w &&& 0xFF)) % 65536 = w := by
  have h1 : w &&& 0xFF = w % 256 := by
    have h := Nat.and_pow_two_sub_one_eq_mod w 8
    norm_num at h
    exact h
  have h2 : (w >>> 8) <<< 8 = 2 ^ 8 * (w / 2 ^ 8) := by
    rw [Nat.shiftLeft_eq, Nat.shiftRight_eq_div_pow]
    ring
  have h3 : 2 ^ 8 * (w / 2 ^ 8) + w % 256 = 2 ^ 8 * (w / 2 ^ 8) ||| w % 256 :=
    Nat.mul_add_lt_is_or (by omega) _
  rw [h1, h2, ← h3]
  have h4 : (2 : Nat) ^ 8 = 256 := by norm_num
  rw [h4]
  omega

/-- The family mask agrees with the high nibble: for a 16-bit `w`,
`w & 0xF000` equals `(w >>> 12) * 4096`, so the switch scrutinee is
determined by the high nibble alone. -/
theorem famEq (w : Nat) (hw : w < 65536) : w &&& 0xF000 = (w >>> 12) * 4096 := by
  have hr : (w >>> 12) * 4096 = (w >>> 12) <<< 12 := by
    rw [Nat.shiftLeft_eq]
  have hmask : (0xF000 : Nat) = (2 ^ 4 - 1) <<< 12 := by decide
  rw [hr, hmask]
  apply Nat.eq_of_testBit_eq
  intro i
  rw [Nat.testBit_and, Nat.testBit_shiftLeft, Nat.testBit_shiftLeft,
      Nat.testBit_shiftRight, Nat.testBit_two_pow_sub_one]
  by_cases h12 : 12 ≤ i
  · by_cases h16 : i < 16
    · have hi : 12 + (i - 12) = i := by omega
      simp [h12, hi, show i - 12 < 4 by omega]
    · have hbit : w.testBit i = false := Nat.testBit_lt_two_pow (by
        calc w < 65536 := hw
        _ = 2 ^ 16 := by norm_num
        _ ≤ 2 ^ i := Nat.pow_le_pow_right (by norm_num) (by omega))
      have hbit2 : w.testBit (12 + (i - 12)) = false := by
        rwa [show 12 + (i - 12) = i by omega]
      simp [hbit, hbit2]
  · simp [h12]

/-- `wordState w` starts at PC = 0. -/
theorem wordState_pc (w : Nat) : (wordState w).pc = 0 := rfl

/-- Reading the first instruction byte of `wordState w` gives the high
byte of `w`. -/
theorem wordState_rd0 (w : Nat) :
    rd (wordState w).memory 0 = Except.ok (w >>> 8) := rfl

/-- Reading the second instruction byte of `wordState w` gives the low
byte of `w`. -/
theorem wordState_rd1 (w : Nat) :
    rd (wordState w).memory (b16 (0 + 1)) = Except.ok (w &&& 0xFF) := rfl

/-- `fetchId` phrased on the `b16`-wrapped fetch expression exactly as it
appears after unfolding `nextOp`. -/
theorem fetchIdB (w : Nat) (hw : w < 65536) :
    b16 ((w >>> 8) <<< 8 ||| (w &&& 0xFF)) = w := fetchId w hw

set_option maxHeartbeats 2000000 in
/-- C5 (decode totality, corrected): for every 16-bit instruction word
`w`, executing one step from a state holding `w` at PC yields the
`UnrecognizedOpcode` error exactly when `w` falls outside the spec's
instruction table as captured by `specUnmatched` — `8xy_` with low
nibble outside {0..7, E}, `Ex__` with low byte outside {9E, A1}, `Fx__`
with low byte outside the nine defined subcodes. In particular every
word of a defined family decodes to its handler (any fault it then
raises is not `UnrecognizedOpcode`), and — against the claim's blanket
wording — `0nnn` words other than `00E0`/`00EE` (SYS) are silently
executed as no-ops rather than reported unrecognized
(`C5_sys_ignored_cex`). -/
theorem C5_decode_unrecognized (w : Nat) (hw : w < 65536) :
    (nextOp 0 (wordState w) = Except.error (Fault.unrecognized w)) ↔
      specUnmatched w = true := by
  simp only [nextOp, wordState_pc, wordState_rd0, wordState_rd1, bindOk,
             fetchIdB w hw, famEq w hw]
  have hdiv : w >>> 12 = w / 4096 := by
    rw [Nat.shiftRight_eq_div_pow]
  have h16 : w >>> 12 = 0 ∨ w >>> 12 = 1 ∨ w >>> 12 = 2 ∨ w >>> 12 = 3 ∨
      w >>> 12 = 4 ∨ w >>> 12 = 5 ∨ w >>> 12 = 6 ∨ w >>> 12 = 7 ∨
      w >>> 12 = 8 ∨ w >>> 12 = 9 ∨ w >>> 12 = 10 ∨ w >>> 12 = 11 ∨
      w >>> 12 = 12 ∨ w >>> 12 = 13 ∨ w >>> 12 = 14 ∨ w >>> 12 = 15 := by
    omega
  rcases h16 with h|h|h|h|h|h|h|h|h|h|h|h|h|h|h|h
  · simp only [h, Nat.reduceMul, Nat.reduceEqDiff, reduceIte]
    exact iff_of_false (notU_sys0 _ _ w) (by simp [specUnmatched, h])
  · simp only [h, Nat.reduceMul, Nat.reduceEqDiff, reduceIte]
    exact iff_of_false (notU_jp1 _ _ w) (by simp [specUnmatched, h])
  · simp only [h, Nat.reduceMul, Nat.reduceEqDiff, reduceIte]
    exact iff_of_false (notU_call2 _ _ w) (by simp [specUnmatched, h])
  · simp only [h, Nat.reduceMul, Nat.reduceEqDiff, reduceIte]
    exact iff_of_false (notU_se3 _ _ _ w) (by simp [specUnmatched, h])
  · simp only [h, Nat.reduceMul, Nat.reduceEqDiff, reduceIte]
    exact iff_of_false (notU_sne4 _ _ _ w) (by simp [specUnmatched, h])
  · simp only [h, Nat.reduceMul, Nat.reduceEqDiff, reduceIte]
    exact iff_of_false (notU_se5 _ _ _ w) (by simp [specUnmatched, h])
  · simp only [h, Nat.reduceMul, Nat.reduceEqDiff, reduceIte]
    exact iff_of_false (notU_ld6 _ _ _ w) (by simp [specUnmatched, h])
  · simp only [h, Nat.reduceMul, Nat.reduceEqDiff, reduceIte]
    exact iff_of_false (notU_add7 _ _ _ w) (by simp [specUnmatched, h])
  · simp only [h, Nat.reduceMul, Nat.reduceEqDiff, reduceIte]
    have hsub : w &&& 0xF ≤ 15 := Nat.and_le_right
    have hs16 : w &&& 0xF = 0 ∨ w &&& 0xF = 1 ∨ w &&& 0xF = 2 ∨ w &&& 0xF = 3 ∨
        w &&& 0xF = 4 ∨ w &&& 0xF = 5 ∨ w &&& 0xF = 6 ∨ w &&& 0xF = 7 ∨
        w &&& 0xF = 8 ∨ w &&& 0xF = 9 ∨ w &&& 0xF = 10 ∨ w &&& 0xF = 11 ∨
        w &&& 0xF = 12 ∨ w &&& 0xF = 13 ∨ w &&& 0xF = 14 ∨ w &&& 0xF = 15 := by
      omega
    rcases hs16 with h0|h0|h0|h0|h0|h0|h0|h0|h0|h0|h0|h0|h0|h0|h0|h0
    · simp only [alu8, h0, Nat.reduceEqDiff, reduceIte]
      exact iff_of_false (notU_ld8 _ _ _ w) (by simp [specUnmatched, h, h0])
    · simp only [alu8, h0, Nat.reduceEqDiff, reduceIte]
      exact iff_of_false (notU_or8 _ _ _ w) (by simp [specUnmatched, h, h0])
    · simp only [alu8, h0, Nat.reduceEqDiff, reduceIte]
      exact iff_of_false (notU_and8 _ _ _ w) (by simp [specUnmatched, h, h0])
    · simp only [alu8, h0, Nat.reduceEqDiff, reduceIte]
      exact iff_of_false (notU_xor8 _ _ _ w) (by simp [specUnmatched, h, h0])
    · simp only [alu8, h0, Nat.reduceEqDiff, reduceIte]
      exact iff_of_false (notU_add8 _ _ _ w) (by simp [specUnmatched, h, h0])
    · simp only [alu8, h0, Nat.reduceEqDiff, reduceIte]
      exact iff_of_false (notU_sub8 _ _ _ w) (by simp [specUnmatched, h, h0])
    · simp only [alu8, h0, Nat.reduceEqDiff, reduceIte]
      exact iff_of_false (notU_shr8 _ _ w) (by simp [specUnmatched, h, h0])
    · simp only [alu8, h0, Nat.reduceEqDiff, reduceIte]
      exact iff_of_false (notU_subn8 _ _ _ w) (by simp [specUnmatched, h, h0])
    · simp [alu8, h0, specUnmatched, h]
    · simp [alu8, h0, specUnmatched, h]
    · simp [alu8, h0, specUnmatched, h]
    · simp [alu8, h0, specUnmatched, h]
    · simp [alu8, h0, specUnmatched, h]
    · simp [alu8, h0, specUnmatched, h]
    · simp only [alu8, h0, Nat.reduceEqDiff, reduceIte]
      exact iff_of_false (notU_shl8 _ _ w) (by simp [specUnmatched, h, h0])
    · simp [alu8, h0, specUnmatched, h]
  · simp only [h, Nat.reduceMul, Nat.reduceEqDiff, reduceIte]
    exact iff_of_false (notU_sne9 _ _ _ w) (by simp [specUnmatched, h])
  · simp only [h, Nat.reduceMul, Nat.reduceEqDiff, reduceIte]
    exact iff_of_false (notU_ldiA _ _ w) (by simp [specUnmatched, h])
  · simp only [h, Nat.reduceMul, Nat.reduceEqDiff, reduceIte]
    exact iff_of_false (notU_jpvB _ _ w) (by simp [specUnmatched, h])
  · simp only [h, Nat.reduceMul, Nat.reduceEqDiff, reduceIte]
    exact iff_of_false (notU_rndC _ _ _ _ w) (by simp [specUnmatched, h])
  · simp only [h, Nat.reduceMul, Nat.reduceEqDiff, reduceIte]
    exact iff_of_false (notU_drwD _ _ _ _ w) (by simp [specUnmatched, h])
  · simp only [h, Nat.reduceMul, Nat.reduceEqDiff, reduceIte]
    by_cases h9E : w &&& 0xFF = 0x9E
    · simp only [skpE, h9E, Nat.reduceEqDiff, reduceIte]
      exact iff_of_false (notU_bind _ _ (notU_rd _ _) (fun _ => notU_ni) w)
        (by simp [specUnmatched, h, h9E])
    by_cases hA1 : w &&& 0xFF = 0xA1
    · simp only [skpE, hA1, Nat.reduceEqDiff, reduceIte]
      exact iff_of_false (notU_bind _ _ (notU_rd _ _) (fun _ => notU_ni) w)
        (by simp [specUnmatched, h, hA1])
    simp [skpE, h9E, hA1, specUnmatched, h]
  · simp only [h, Nat.reduceMul, Nat.reduceEqDiff, reduceIte]
    by_cases h07 : w &&& 0xFF = 0x07
    · simp only [miscF, h07, Nat.reduceEqDiff, reduceIte]
      exact iff_of_false (notU_bind _ _ (notU_wr _ _ _) (fun _ => notU_ok _) w)
        (by simp [specUnmatched, h, h07])
    by_cases h0A : w &&& 0xFF = 0x0A
    · simp only [miscF, h0A, Nat.reduceEqDiff, reduceIte]
      exact iff_of_false (notU_ni w) (by simp [specUnmatched, h, h0A])
    by_cases h15 : w &&& 0xFF = 0x15
    · simp only [miscF, h15, Nat.reduceEqDiff, reduceIte]
      exact iff_of_false (notU_bind _ _ (notU_rd _ _) (fun _ => notU_ok _) w)
        (by simp [specUnmatched, h, h15])
    by_cases h18 : w &&& 0xFF = 0x18
    · simp only [miscF, h18, Nat.reduceEqDiff, reduceIte]
      exact iff_of_false (notU_bind _ _ (notU_rd _ _) (fun _ => notU_ok _) w)
        (by simp [specUnmatched, h, h18])
    by_cases h1E : w &&& 0xFF = 0x1E
    · simp only [miscF, h1E, Nat.reduceEqDiff, reduceIte]
      exact iff_of_false (notU_bind _ _ (notU_rd _ _) (fun _ => notU_ok _) w)
        (by simp [specUnmatched, h, h1E])
    by_cases h29 : w &&& 0xFF = 0x29
    · simp only [miscF, h29, Nat.reduceEqDiff, reduceIte]
      exact iff_of_false (notU_bind _ _ (notU_rd _ _) (fun _ => notU_ok _) w)
        (by simp [specUnmatched, h, h29])
    by_cases h33 : w &&& 0xFF = 0x33
    · simp only [miscF, h33, Nat.reduceEqDiff, reduceIte]
      exact iff_of_false
        (notU_bind _ _ (notU_rd _ _) (fun _ =>
          notU_bind _ _ (notU_wr _ _ _) (fun _ =>
            notU_bind _ _ (notU_wr _ _ _) (fun _ =>
              notU_bind _ _ (notU_wr _ _ _) (fun _ => notU_ok _)))) w)
        (by simp [specUnmatched, h, h33])
    by_cases h55 : w &&& 0xFF = 0x55
    · simp only [miscF, h55, Nat.reduceEqDiff, reduceIte]
      exact iff_of_false (notU_storeRegs _ _ w) (by simp [specUnmatched, h, h55])
    by_cases h65 : w &&& 0xFF = 0x65
    · simp only [miscF, h65, Nat.reduceEqDiff, reduceIte]
      exact iff_of_false (notU_loadRegs _ _ w) (by simp [specUnmatched, h, h65])
    simp [miscF, h07, h0A, h15, h18, h1E, h29, h33, h55, h65, specUnmatched, h]

/-- C5 counterexample to the claim as stated: the word `0x0123` matches
no listed instruction, yet the step succeeds leaving the state unchanged
(the SYS default branch does nothing) — no `UnrecognizedOpcode` error is
yielded. -/
theorem C5_sys_ignored_cex :
    nextOp 0 (wordState 0x0123) = Except.ok (wordState 0x0123) ∧
      isUnrec 0x0123 (nextOp 0 (wordState 0x0123)) = false := ⟨rfl, rfl⟩

/-- C5 witness: the word `0x8008` (an `8xy_` instruction with low nibble
8, outside the defined subfamilies) is reported as `UnrecognizedOpcode`,
by the mpr direction of `C5_decode_unrecognized` at a concrete input. -/
theorem C5_decode_unrecognized_w :
    nextOp 0 (wordState 0x8008) = Except.error (Fault.unrecognized 0x8008) :=
  (C5_decode_unrecognized 0x8008 (by norm_num)).mpr (by decide)

end Chip8
